import Mathlib

/-!
Shallow embedding of the supervisord process-manager slice
(`src/main.go`, `src/supervisor.go`) together with the parts of the
external collaborator packages (`process`, `config`, `signals`, `types`,
`util`, `faults`) that the public operations of `Supervisor` depend on.
The collaborator packages are not part of this repository's source, so
their behaviour is modelled from the specification; every such definition
carries a doc comment starting with "Modelled from the spec".  Wall-clock
reads (`time.Now()`) are made explicit as a `now : Nat` argument, and
side effects on child processes are made explicit as fields of the
`Process` record (delivered signals, stdin writes).
-/

/-- Modelled from the spec (§3, process runtime state): the nine-state
per-process lifecycle of the external `process` package. -/
inductive ProcState where
  | Stopped
  | Starting
  | Running
  | Backoff
  | Stopping
  | Exited
  | Fatal
  | Unknown
deriving DecidableEq, Repr

/-- Modelled from the spec: the state's display name, as produced by
`State.String()` in the external `process` package. -/
def ProcState.str : ProcState → String
  | .Stopped => "STOPPED"
  | .Starting => "STARTING"
  | .Running => "RUNNING"
  | .Backoff => "BACKOFF"
  | .Stopping => "STOPPING"
  | .Exited => "EXITED"
  | .Fatal => "FATAL"
  | .Unknown => "UNKNOWN"

/-- States in which the process has a live child (spec §3 invariant:
`pid > 0` iff state ∈ {STARTING, RUNNING, STOPPING}). -/
def ProcState.runningLike : ProcState → Bool
  | .Starting => true
  | .Running => true
  | .Stopping => true
  | _ => false

/-- States from which `start` spawns and in which `stop` returns at once
(spec §4.3 / §4.5). -/
def ProcState.idle : ProcState → Bool
  | .Stopped => true
  | .Exited => true
  | .Fatal => true
  | .Backoff => true
  | _ => false

/-- Modelled from the spec (§3, §4.3): a supervised process of the
external `process` package.  `startOutcome` abstracts the child's
behaviour: the state the process has reached once a `start` attempt has
run to its deadline (RUNNING if the child stays up `startsecs`; BACKOFF
or FATAL when spawning fails or the child exits early and retries are
exhausted).  `stdinOk` abstracts whether a write to the child's stdin
pipe succeeds; `stdinData` records the chars written; `sigLog` records
the signals delivered to the child. -/
structure Process where
  name : String
  group : String
  description : String
  state : ProcState
  startTime : Nat
  stopTime : Nat
  exitstatus : Int
  stdoutLogfile : String
  stderrLogfile : String
  pid : Nat
  retryCount : Nat
  adminStopped : Bool
  autostart : Bool
  startOutcome : ProcState
  spawnPid : Nat
  stdinOk : Bool
  stdinData : List String
  sigLog : List Nat
deriving DecidableEq, Repr

/-- Modelled from the spec (§4.3): `Process.Start`.  From an idle state
it spawns the child and drives the state machine to `startOutcome`,
clearing `admin_stopped` and resetting `retry_count` on a transition
into RUNNING; in any other state the call is a no-op (a RUNNING process
is already started).  `wait` only decides when the caller resumes, not
the state eventually reached, so the model records the completed
transition. -/
def Process.start (wait : Bool) (p : Process) : Process :=
  if p.state.idle then
    { p with
      state := p.startOutcome
      adminStopped := false
      retryCount := if p.startOutcome = ProcState.Running then 0 else p.retryCount
      pid := if p.startOutcome.runningLike then p.spawnPid else 0 }
  else p

/-- Modelled from the spec (§4.5): `Process.Stop`.  Sets
`admin_stopped`; if the process is idle it returns immediately,
otherwise the stop sequence (signals, then KILL after `stopwaitsecs`)
brings the process to STOPPED.  The model records the completed stop. -/
def Process.stop (wait : Bool) (p : Process) : Process :=
  if p.state.idle then
    { p with adminStopped := true }
  else
    { p with adminStopped := true, state := ProcState.Stopped, pid := 0 }

/-- Modelled from the spec (§6, signal dispatch): `Process.Signal`
delivers a resolved signal number to the child when one is alive. -/
def Process.deliverSignal (sig : Nat) (p : Process) : Process :=
  if p.state.runningLike then { p with sigLog := p.sigLog ++ [sig] } else p

/-- Modelled from the spec (§3): `Process.SendProcessStdin` writes the
chars to the child's stdin pipe; the write can fail with an I/O error
(abstracted by `stdinOk`). -/
def Process.sendStdin (chars : String) (p : Process) : Option Process :=
  if p.stdinOk then some { p with stdinData := p.stdinData ++ [chars] } else none

/-- Modelled from the spec (§4.6): the match relation of
`Manager.FindMatch` — a pattern matches `name`, `group:name`, or
`group:*`. -/
def Process.patMatch (pattern : String) (p : Process) : Bool :=
  pattern == p.name || pattern == p.group ++ ":" ++ p.name || pattern == p.group ++ ":*"

/-- Modelled from the spec (§4.6): the registry of the external
`process.Manager`, a mapping name → Process. -/
structure Manager where
  procs : List Process
deriving DecidableEq, Repr

/-- Modelled from the spec (§4.6): `Manager.Find`. -/
def Manager.find (m : Manager) (name : String) : Option Process :=
  m.procs.find? (fun p => p.name == name)

/-- Modelled from the spec (§4.6): `Manager.FindMatch`. -/
def Manager.findMatch (m : Manager) (pattern : String) : List Process :=
  m.procs.filter (Process.patMatch pattern)

/-- Modelled from the spec (§4.6): `Manager.Remove` unregisters and
returns the named process. -/
def Manager.remove (m : Manager) (name : String) : Option Process × Manager :=
  (m.find name, ⟨m.procs.filter (fun p => ¬ p.name == name)⟩)

/-- Modelled from the spec (§4.6): `Manager.CreateProcess` is idempotent
by name — it returns the existing process when one is registered. -/
def Manager.createProcess (m : Manager) (p : Process) : Manager :=
  if m.procs.any (fun q => q.name == p.name) then m else ⟨m.procs ++ [p]⟩

/-- Modelled from the spec (§4.6): `Manager.ForEachProcess` applied as a
state transformer — the callback runs once per registered process. -/
def Manager.forEach (m : Manager) (fn : Process → Process) : Manager :=
  ⟨m.procs.map fn⟩

/-- Modelled from the spec (§4.6): `Manager.AsyncForEachProcess` fans
`fn` out across all processes; each completion emits the (updated)
Process onto the completion channel, and the returned `n` tells the
caller how many completions to drain.  The model returns `n`, the
drained channel contents, and the manager afterwards. -/
def Manager.asyncForEach (m : Manager) (fn : Process → Process) :
    Nat × List Process × Manager :=
  (m.procs.length, m.procs.map fn, ⟨m.procs.map fn⟩)

/-- Modelled from the spec (§4.6): `Manager.StopAllProcesses` stops
every registered process and returns after all reach a terminal
non-running state. -/
def Manager.stopAllProcesses (m : Manager) : Manager :=
  m.forEach (Process.stop true)

/-- Modelled from the spec (§4.6): `Manager.StartAutoStartPrograms`
invokes `start(wait=true)` for every process with `autostart=true`. -/
def Manager.startAutoStartPrograms (m : Manager) : Manager :=
  m.forEach (fun p => if p.autostart then p.start true else p)

/-- Modelled from the spec (§6, external interfaces): the external
`signals.ToSignal` table from textual signal names to platform signal
numbers; unknown names fail. -/
def toSignal (name : String) : Except String Nat :=
  match name with
  | "HUP" => Except.ok 1
  | "INT" => Except.ok 2
  | "QUIT" => Except.ok 3
  | "ABRT" => Except.ok 6
  | "KILL" => Except.ok 9
  | "USR1" => Except.ok 10
  | "USR2" => Except.ok 12
  | "TERM" => Except.ok 15
  | "CONT" => Except.ok 18
  | "STOP" => Except.ok 19
  | _ => Except.error ("invalid signal name " ++ name)

/-- Modelled from the spec (§4.7): the external `util.Sub` — the names
in `a` that are not in `b`. -/
def utilSub (a b : List String) : List String :=
  a.filter (fun x => ¬ b.contains x)

/-- Modelled from the spec (§2, §4.7): the program-group mapping of the
external `config` package — pairs `(program, group)`. -/
structure ProgramGroup where
  pairs : List (String × String)
deriving DecidableEq, Repr

/-- The distinct group names of a program-group mapping. -/
def ProgramGroup.groupNames (pg : ProgramGroup) : List String :=
  (pg.pairs.map Prod.snd).dedup

/-- The programs a group contains. -/
def ProgramGroup.membersOf (pg : ProgramGroup) (g : String) : List String :=
  (pg.pairs.filter (fun q => q.snd == g)).map Prod.fst

/-- Whether two mappings give group `g` the same member set. -/
def ProgramGroup.sameMembers (a b : ProgramGroup) (g : String) : Bool :=
  (a.membersOf g).all (fun x => (b.membersOf g).contains x) &&
  (b.membersOf g).all (fun x => (a.membersOf g).contains x)

/-- Modelled from the spec (§6): `ProcessGroup.Sub` — the (added,
changed, removed) group names computed as the difference between the
new (`pg`) and previous (`prev`) program-group mappings. -/
def ProgramGroup.sub (pg prev : ProgramGroup) :
    List String × List String × List String :=
  let added := pg.groupNames.filter (fun g => ¬ prev.groupNames.contains g)
  let changed := pg.groupNames.filter
    (fun g => prev.groupNames.contains g && ¬ ProgramGroup.sameMembers pg prev g)
  let removed := prev.groupNames.filter (fun g => ¬ pg.groupNames.contains g)
  (added, changed, removed)

/-- Modelled from the spec (§1, §4.7): the slice of the external
`config.Config` the manager operations read — the loaded program
descriptors (as the Process each `CreateProcess` call would register),
the event-listener descriptors, and the program-group mapping.
`Load()` is an external input, so `Supervisor.reload` takes the newly
loaded configuration as an argument. -/
structure Config where
  programs : List Process
  eventListeners : List Process
  programGroup : ProgramGroup
deriving DecidableEq, Repr

/-- `GetProgramNames` of the configuration. -/
def Config.programNames (c : Config) : List String :=
  c.programs.map Process.name

/-- `RemoveProgram` of the configuration. -/
def Config.removeProgram (c : Config) (name : String) : Config :=
  { c with
    programs := c.programs.filter (fun p => ¬ p.name == name)
    programGroup := ⟨c.programGroup.pairs.filter (fun q => ¬ q.fst == name)⟩ }

/-- The `Supervisor` state of `src/supervisor.go` (the XML-RPC handle
and the logger are pure I/O collaborators and carry no state the public
operations read, so they are left out of the record). -/
structure Supervisor where
  config : Config
  procMgr : Manager
  restarting : Bool
deriving DecidableEq, Repr

/-- `StateInfo` of `src/supervisor.go`. -/
structure StateInfo where
  statecode : Int
  statename : String
deriving DecidableEq, Repr

/-- Modelled from the spec (§7): the numeric status the external
`faults` package uses for a successful per-process result. -/
def faultsSuccess : Nat := 80

/-- `RPCTaskResult` of `src/supervisor.go`. -/
structure RPCTaskResult where
  name : String
  group : String
  status : Nat
  description : String
deriving DecidableEq, Repr

/-- The `types.ProcessInfo` record as filled in by `getProcessInfo` in
`src/supervisor.go` (the state is kept as the abstract `ProcState`
since the external `types` package's numeric encoding is not part of
this repository's source). -/
structure ProcessInfo where
  name : String
  group : String
  description : String
  start : Nat
  stop : Nat
  now : Nat
  state : ProcState
  statename : String
  spawnerr : String
  exitstatus : Int
  logfile : String
  stdoutLogfile : String
  stderrLogfile : String
  pid : Nat
deriving DecidableEq, Repr

/-- `getProcessInfo` of `src/supervisor.go`, with the `time.Now()` read
passed explicitly. -/
def getProcessInfo (now : Nat) (p : Process) : ProcessInfo :=
  { name := p.name
    group := p.group
    description := p.description
    start := p.startTime
    stop := p.stopTime
    now := now
    state := p.state
    statename := p.state.str
    spawnerr := ""
    exitstatus := p.exitstatus
    logfile := p.stdoutLogfile
    stdoutLogfile := p.stdoutLogfile
    stderrLogfile := p.stderrLogfile
    pid := p.pid }

/-- The (group, name) order of the spec (§6). -/
def infoLe (a b : ProcessInfo) : Prop :=
  toLex (a.group, a.name) ≤ toLex (b.group, b.name)

instance : DecidableRel infoLe := fun a b =>
  inferInstanceAs (Decidable (toLex (a.group, a.name) ≤ toLex (b.group, b.name)))

/-- Modelled from the spec (§6): the external `types.SortProcessInfos`
sorts the records by (group, name). -/
def sortProcessInfos (infos : List ProcessInfo) : List ProcessInfo :=
  List.insertionSort infoLe infos

/-!  The public operations of `src/supervisor.go`.  Each Go method
fills a reply struct and returns an `error`; the embedding returns the
updated supervisor (where the method has side effects), the reply, and
`Option String` for the error. -/

/-- `Supervisor.GetState` (src/supervisor.go:131): the reply is the
constant `{1, "RUNNING"}`. -/
def Supervisor.getState (s : Supervisor) : StateInfo × Option String :=
  ({ statecode := 1, statename := "RUNNING" }, none)

/-- `Supervisor.StartProcess` (src/supervisor.go:238): find the
matching processes; if none, an error; otherwise `Start(wait)` each
match and report `Success = true`. -/
def Supervisor.startProcess (s : Supervisor) (name : String) (wait : Bool) :
    Supervisor × Bool × Option String :=
  let procs := s.procMgr.findMatch name
  if procs.length = 0 then
    (s, false, some ("fail to find process " ++ name))
  else
    let mgr := s.procMgr.forEach (fun p => if Process.patMatch name p then p.start wait else p)
    ({ s with procMgr := mgr }, true, none)

/-- `Supervisor.StopProcess` (src/supervisor.go:299). -/
def Supervisor.stopProcess (s : Supervisor) (name : String) (wait : Bool) :
    Supervisor × Bool × Option String :=
  let procs := s.procMgr.findMatch name
  if procs.length = 0 then
    (s, false, some ("fail to find process " ++ name))
  else
    let mgr := s.procMgr.forEach (fun p => if Process.patMatch name p then p.stop wait else p)
    ({ s with procMgr := mgr }, true, none)

/-- `Supervisor.StartAllProcesses` (src/supervisor.go:252): fan
`Start(wait)` out over every process, drain `n` completions and append
one `RPCTaskResult` with status `faults.Success` per completion. -/
def Supervisor.startAllProcesses (s : Supervisor) (wait : Bool) (now : Nat) :
    Supervisor × List RPCTaskResult × Option String :=
  let r := s.procMgr.asyncForEach (Process.start wait)
  let results := r.2.1.map (fun p =>
    let info := getProcessInfo now p
    { name := info.name, group := info.group,
      status := faultsSuccess, description := "OK" : RPCTaskResult })
  ({ s with procMgr := r.2.2 }, results, none)

/-- `Supervisor.StopAllProcesses` (src/supervisor.go:332). -/
def Supervisor.stopAllProcesses (s : Supervisor) (wait : Bool) (now : Nat) :
    Supervisor × List RPCTaskResult × Option String :=
  let r := s.procMgr.asyncForEach (Process.stop wait)
  let results := r.2.1.map (fun p =>
    let info := getProcessInfo now p
    { name := info.name, group := info.group,
      status := faultsSuccess, description := "OK" : RPCTaskResult })
  ({ s with procMgr := r.2.2 }, results, none)

/-- `Supervisor.StartProcessGroup` (src/supervisor.go:278): fan out
over all processes, `Start(wait)` only those whose group matches, and
collect the infos of the completions whose group matches. -/
def Supervisor.startProcessGroup (s : Supervisor) (name : String) (wait : Bool)
    (now : Nat) : Supervisor × List ProcessInfo × Option String :=
  let r := s.procMgr.asyncForEach
    (fun p => if p.group == name then p.start wait else p)
  let infos := (r.2.1.filter (fun p => p.group == name)).map (getProcessInfo now)
  ({ s with procMgr := r.2.2 }, infos, none)

/-- `Supervisor.StopProcessGroup` (src/supervisor.go:313). -/
def Supervisor.stopProcessGroup (s : Supervisor) (name : String) (wait : Bool)
    (now : Nat) : Supervisor × List ProcessInfo × Option String :=
  let r := s.procMgr.asyncForEach
    (fun p => if p.group == name then p.stop wait else p)
  let infos := (r.2.1.filter (fun p => p.group == name)).map (getProcessInfo now)
  ({ s with procMgr := r.2.2 }, infos, none)

/-- `Supervisor.SignalProcess` (src/supervisor.go:357): no match is an
error with `Success = false`; otherwise the signal name is resolved and
delivered only when resolution succeeds, and `Success = true` is
reported either way with a nil error. -/
def Supervisor.signalProcess (s : Supervisor) (name sigName : String) :
    Supervisor × Bool × Option String :=
  let procs := s.procMgr.findMatch name
  if procs.length = 0 then
    (s, false, some ("No process named " ++ name))
  else
    match toSignal sigName with
    | Except.ok sig =>
        let mgr := s.procMgr.forEach
          (fun p => if Process.patMatch name p then p.deliverSignal sig else p)
        ({ s with procMgr := mgr }, true, none)
    | Except.error _ => (s, true, none)

/-- `Supervisor.SendProcessStdin` (src/supervisor.go:407): unknown name
or a process not in RUNNING is a `NOT_RUNNING` error; otherwise the
write's own success decides the reply and the error. -/
def Supervisor.sendProcessStdin (s : Supervisor) (name chars : String) :
    Supervisor × Bool × Option String :=
  match s.procMgr.find name with
  | none => (s, false, some "NOT_RUNNING")
  | some proc =>
    if proc.state ≠ ProcState.Running then
      (s, false, some "NOT_RUNNING")
    else
      match proc.sendStdin chars with
      | some proc2 =>
          let mgr := s.procMgr.forEach (fun p => if p.name == proc.name then proc2 else p)
          ({ s with procMgr := mgr }, true, none)
      | none => (s, false, some "write to stdin failed")

/-- `Supervisor.GetAllProcessInfo` (src/supervisor.go:215): one info
per registered process, then `types.SortProcessInfos`. -/
def Supervisor.getAllProcessInfo (s : Supervisor) (now : Nat) :
    List ProcessInfo × Option String :=
  (sortProcessInfos (s.procMgr.procs.map (getProcessInfo now)), none)

/-- `Supervisor.AddProcessGroup` (src/supervisor.go:626): always
`Success = false`, nil error, no state change. -/
def Supervisor.addProcessGroup (s : Supervisor) (name : String) :
    Supervisor × Bool × Option String :=
  (s, false, none)

/-- `Supervisor.RemoveProcessGroup` (src/supervisor.go:632). -/
def Supervisor.removeProcessGroup (s : Supervisor) (name : String) :
    Supervisor × Bool × Option String :=
  (s, false, none)

/-- `Supervisor.createPrograms` (src/supervisor.go:481): register a
process for every program of the (new) configuration, then unregister
every previous program no longer configured — without stopping it. -/
def Supervisor.createPrograms (s : Supervisor) (prevPrograms : List String) :
    Supervisor :=
  let programs := s.config.programNames
  let mgr := s.config.programs.foldl Manager.createProcess s.procMgr
  let removed := utilSub prevPrograms programs
  let mgr := removed.foldl (fun m nm => (m.remove nm).2) mgr
  { s with procMgr := mgr }

/-- `Supervisor.startEventListeners` (src/supervisor.go:497): register
each event-listener process and start it without waiting. -/
def Supervisor.startEventListeners (s : Supervisor) : Supervisor :=
  let mgr := s.config.eventListeners.foldl
    (fun m e =>
      let m2 := m.createProcess e
      m2.forEach (fun p => if p.name == e.name then p.start false else p))
    s.procMgr
  { s with procMgr := mgr }

/-- The outcome of `Supervisor.Reload`: the supervisor afterwards, the
processes that the removal loop actually removed and stopped (the Go
code calls `Stop(false)` on each non-nil `procMgr.Remove` result), and
the (added, changed, removed) group-name triple. -/
structure ReloadOutcome where
  sup : Supervisor
  stoppedRemoved : List Process
  addedGroup : List String
  changedGroup : List String
  removedGroup : List String
deriving DecidableEq, Repr

/-- `Supervisor.Reload` (src/supervisor.go:436) on the successful-load
path: `config.Load()` is the external input `newCfg` (its loaded
program names are `newCfg.programNames`); the logger / pid-file / HTTP
side effects of `setSupervisordInfo` and `startHTTPServer` touch no
state of this model and resource checking succeeds.  The sequence is:
snapshot previous programs and groups, load, create programs (which
already unregisters removed ones), start listeners and autostart
programs, then for each removed program drop it from the configuration,
`Remove` it from the manager and `Stop(false)` the removal's result
when it is non-nil, and finally return `ProgramGroup.Sub`. -/
def Supervisor.reload (s : Supervisor) (newCfg : Config) : ReloadOutcome :=
  let prevPrograms := s.config.programNames
  let prevProgGroup := s.config.programGroup
  let loadedPrograms := newCfg.programNames
  let s1 := { s with config := newCfg }
  let s2 := s1.startEventListeners
  let s3 := s2.createPrograms prevPrograms
  let s4 := { s3 with procMgr := s3.procMgr.startAutoStartPrograms }
  let removedPrograms := utilSub prevPrograms loadedPrograms
  let step := fun (acc : Supervisor × List Process) nm =>
    let cfg2 := acc.1.config.removeProgram nm
    let r := acc.1.procMgr.remove nm
    match r.1 with
    | some p => ({ acc.1 with config := cfg2, procMgr := r.2 },
                 acc.2 ++ [p.stop false])
    | none => ({ acc.1 with config := cfg2, procMgr := r.2 }, acc.2)
  let fin := removedPrograms.foldl step (s4, [])
  let diff := newCfg.programGroup.sub prevProgGroup
  { sup := fin.1
    stoppedRemoved := fin.2
    addedGroup := diff.1
    changedGroup := diff.2.1
    removedGroup := diff.2.2 }

/-- `Supervisor.ReloadConfig` (src/supervisor.go:605): the RPC wrapper
copying `Reload`'s triple into the reply. -/
def Supervisor.reloadConfig (s : Supervisor) (newCfg : Config) :
    Supervisor × (List String × List String × List String) × Option String :=
  let r := s.reload newCfg
  (r.sup, (r.addedGroup, r.changedGroup, r.removedGroup), none)

/-!  `initSignals` of `src/main.go`: the handler goroutine installed
for SIGINT and SIGTERM. -/

/-- The actions the signal-handler goroutine of `initSignals`
(src/main.go:30) performs, in program order. -/
inductive MainAction where
  | logAction
  | stopAllAction
  | exitAction (code : Int)
deriving DecidableEq, Repr

/-- The signals `initSignals` subscribes to (`syscall.SIGINT` = 2,
`syscall.SIGTERM` = 15). -/
def handledSignals : List Nat := [2, 15]

/-- The body of the `initSignals` handler goroutine as its sequence of
actions: log, `procMgr.StopAllProcesses()`, `os.Exit(-1)`.  The trace
does not depend on which of the subscribed signals arrived. -/
def signalHandlerTrace (sig : Nat) : List MainAction :=
  [MainAction.logAction, MainAction.stopAllAction, MainAction.exitAction (-1)]

/-- The state effect of the `initSignals` handler on the supervisor up
to (and excluding) the `os.Exit(-1)` call: `StopAllProcesses` over the
manager. -/
def signalHandlerRun (sig : Nat) (s : Supervisor) : Supervisor :=
  { s with procMgr := s.procMgr.stopAllProcesses }

/-! Helper lemmas and concrete fixtures used by the theorems below. -/

/-- `Start` never changes the process's name. -/
theorem Process.start_name (wait : Bool) (p : Process) : (p.start wait).name = p.name := by
  unfold Process.start
  split <;> rfl

/-- `Start` never changes the process's group. -/
theorem Process.start_group (wait : Bool) (p : Process) : (p.start wait).group = p.group := by
  unfold Process.start
  split <;> rfl

/-- `Stop` never changes the process's name. -/
theorem Process.stop_name (wait : Bool) (p : Process) : (p.stop wait).name = p.name := by
  unfold Process.stop
  split <;> rfl

/-- `Stop` never changes the process's group. -/
theorem Process.stop_group (wait : Bool) (p : Process) : (p.stop wait).group = p.group := by
  unfold Process.stop
  split <;> rfl

/-- After `Stop`, a process is never in a running-like state. -/
theorem Process.stop_not_runningLike (wait : Bool) (p : Process) :
    ((p.stop wait).state).runningLike = false := by
  unfold Process.stop
  rcases p with ⟨_, _, _, st, _⟩
  cases st <;> simp [ProcState.idle, ProcState.runningLike]

/-- A sample program: registered under name `a`, group `g`, idle, whose
start attempt ends in FATAL with last exit status 1. -/
def demoProc : Process :=
  { name := "a", group := "g", description := "", state := ProcState.Stopped,
    startTime := 0, stopTime := 0, exitstatus := 1,
    stdoutLogfile := "", stderrLogfile := "", pid := 0, retryCount := 0,
    adminStopped := false, autostart := false, startOutcome := ProcState.Fatal,
    spawnPid := 7, stdinOk := true, stdinData := [], sigLog := [] }

/-- A configuration holding just `demoProc` in group `g`. -/
def demoCfg : Config :=
  { programs := [demoProc], eventListeners := [], programGroup := ⟨[("a", "g")]⟩ }

/-- A supervisor managing just `demoProc`. -/
def demoSup : Supervisor :=
  { config := demoCfg, procMgr := ⟨[demoProc]⟩, restarting := false }

/-- The empty configuration (successful load with no programs). -/
def emptyCfg : Config :=
  { programs := [], eventListeners := [], programGroup := ⟨[]⟩ }

/-- `demoProc` in the RUNNING state. -/
def runProc : Process := { demoProc with state := ProcState.Running }

/-- A supervisor managing just `runProc`. -/
def runSup : Supervisor := { demoSup with procMgr := ⟨[runProc]⟩ }

/-! ## Claim C8 -/

/-- C8: for every supervisor state — in particular whatever the
`restarting` flag holds and whatever condition the processes are in —
`GetState` replies with statecode 1 and statename "RUNNING" and a nil
error; the reported supervisor state is a constant. -/
theorem getState_constant_running (s : Supervisor) :
    s.getState = ({ statecode := 1, statename := "RUNNING" }, none) ∧
    ({ s with restarting := true } : Supervisor).getState = s.getState := by
  exact ⟨rfl, rfl⟩

/-! ## Claim C9 -/

/-- C9: for every supervisor state and every group name,
`AddProcessGroup` and `RemoveProcessGroup` reply `Success = false` with
a nil error and leave the whole supervisor state (registry,
configuration, every process) unchanged. -/
theorem addRemoveProcessGroup_noop (s : Supervisor) (name : String) :
    s.addProcessGroup name = (s, false, none) ∧
    s.removeProcessGroup name = (s, false, none) := by
  exact ⟨rfl, rfl⟩

/-! ## Claim C1 -/

/-- C1 fails on the code: `StartProcess` on the registered name `a`
whose start attempt ends in FATAL still reports `Success = true` with a
nil error (no SPAWN_ERROR fault carrying the exit status), even though
the process did not reach RUNNING. -/
theorem startProcess_success_despite_fatal :
    (demoSup.startProcess "a" true).2.1 = true ∧
    (demoSup.startProcess "a" true).2.2 = none ∧
    ((demoSup.startProcess "a" true).1.procMgr.find "a").map Process.state =
      some ProcState.Fatal := by
  decide

/-- C1 amended: `StartProcess(name, wait)` errors exactly when no
registered process matches `name`; otherwise it invokes `Start(wait)`
on every match and reports `Success = true` with a nil error regardless
of the state the process reached — no SPAWN_ERROR fault exists. -/
theorem startProcess_success_iff_match (s : Supervisor) (name : String) (wait : Bool) :
    (s.procMgr.findMatch name = [] →
      s.startProcess name wait = (s, false, some ("fail to find process " ++ name))) ∧
    (s.procMgr.findMatch name ≠ [] →
      (s.startProcess name wait).2.1 = true ∧
      (s.startProcess name wait).2.2 = none ∧
      (s.startProcess name wait).1.procMgr.procs =
        s.procMgr.procs.map (fun p => if Process.patMatch name p then p.start wait else p)) := by
  constructor
  · intro h
    simp [Supervisor.startProcess, h]
  · intro h
    have hlen : ¬ (s.procMgr.findMatch name).length = 0 := by
      simpa [List.length_eq_zero] using h
    simp [Supervisor.startProcess, hlen, Manager.forEach]

/-- Witness for the amended C1 at a concrete supervisor. -/
theorem startProcess_success_iff_match_witness :
    (demoSup.startProcess "a" true).2.1 = true ∧
    (demoSup.startProcess "a" true).2.2 = none ∧
    (demoSup.startProcess "a" true).1.procMgr.procs =
      demoSup.procMgr.procs.map (fun p => if Process.patMatch "a" p then p.start true else p) :=
  (startProcess_success_iff_match demoSup "a" true).2 (by decide)

/-! ## Claim C2 -/

/-- C2 fails on the code: with the registered name `a` matching and the
signal name `WAT` failing to resolve, `SignalProcess` reports
`Success = true` with a nil error (no BAD_SIGNAL fault), though no
signal is delivered and the state is unchanged. -/
theorem signalProcess_unknown_reports_success :
    demoSup.procMgr.findMatch "a" ≠ [] ∧
    toSignal "WAT" = Except.error "invalid signal name WAT" ∧
    demoSup.signalProcess "a" "WAT" = (demoSup, true, none) :=
  ⟨by decide, rfl, by decide⟩

/-- C2 amended: when the name matches at least one registered process
and the signal name does not resolve, no signal is delivered to any
process (the supervisor state is unchanged) but the call still reports
`Success = true` with a nil error instead of a BAD_SIGNAL fault. -/
theorem signalProcess_unknown_noop (s : Supervisor) (name sigName e : String)
    (hm : s.procMgr.findMatch name ≠ [])
    (hs : toSignal sigName = Except.error e) :
    s.signalProcess name sigName = (s, true, none) := by
  have hlen : ¬ (s.procMgr.findMatch name).length = 0 := by
    simpa [List.length_eq_zero] using hm
  simp [Supervisor.signalProcess, hlen, hs]

/-- Witness for the amended C2 at a concrete supervisor. -/
theorem signalProcess_unknown_noop_witness :
    demoSup.signalProcess "a" "WAT" = (demoSup, true, none) :=
  signalProcess_unknown_noop demoSup "a" "WAT" "invalid signal name WAT"
    (by decide) rfl

/-! ## Claim C3 -/

/-- C3 at the failing input: previous configuration has program `a`
(registered, group `g`), the new configuration loads successfully with
no programs.  `Reload` does unregister `a` and does return the
(added, changed, removed) triple `([], [], ["g"])` as claimed, but the
removal loop stops nothing: `createPrograms` already unregistered `a`,
so `procMgr.Remove` returns nil there and `Stop(false)` is never
invoked — even though `a` was registered when the reload began. -/
theorem reload_removes_without_stopping :
    demoSup.procMgr.find "a" = some demoProc ∧
    (demoSup.reload emptyCfg).sup.procMgr.procs = [] ∧
    (demoSup.reload emptyCfg).addedGroup = [] ∧
    (demoSup.reload emptyCfg).changedGroup = [] ∧
    (demoSup.reload emptyCfg).removedGroup = ["g"] ∧
    (demoSup.reload emptyCfg).stoppedRemoved = [] := by
  decide

/-! ## Claim C4 -/

/-- C4 fails on the code: the single registered process's start attempt
ends in FATAL, yet its entry in the `StartAllProcesses` result list
carries status `faults.Success` and description "OK" — the entry does
not reflect the process's individual outcome. -/
theorem startAll_success_despite_fatal :
    (demoSup.startAllProcesses true 5).2.1 =
      [{ name := "a", group := "g", status := faultsSuccess, description := "OK" }] ∧
    ((demoSup.startAllProcesses true 5).1.procMgr.find "a").map Process.state =
      some ProcState.Fatal := by
  decide

/-- C4 amended: `StartAllProcesses(wait)` and `StopAllProcesses(wait)`
return exactly one entry per registered process — the fan-out count `n`
equals the number of completions drained, which equals the registry
size — and the entries carry the registered names and groups in
registry order; but every entry unconditionally has status
`faults.Success` and description "OK", so the per-process individual
outcome is not carried. -/
theorem allProcesses_one_result_each (s : Supervisor) (wait : Bool) (now : Nat) :
    (s.procMgr.asyncForEach (Process.start wait)).1 = s.procMgr.procs.length ∧
    (s.startAllProcesses wait now).2.1.length = s.procMgr.procs.length ∧
    (s.stopAllProcesses wait now).2.1.length = s.procMgr.procs.length ∧
    (s.startAllProcesses wait now).2.1.map RPCTaskResult.name =
      s.procMgr.procs.map Process.name ∧
    (s.stopAllProcesses wait now).2.1.map RPCTaskResult.name =
      s.procMgr.procs.map Process.name ∧
    (s.startAllProcesses wait now).2.1.all
      (fun r => r.status == faultsSuccess && r.description == "OK") = true ∧
    (s.stopAllProcesses wait now).2.1.all
      (fun r => r.status == faultsSuccess && r.description == "OK") = true := by
  refine ⟨rfl, ?_, ?_, ?_, ?_, ?_, ?_⟩
  · simp [Supervisor.startAllProcesses, Manager.asyncForEach]
  · simp [Supervisor.stopAllProcesses, Manager.asyncForEach]
  · simp only [Supervisor.startAllProcesses, Manager.asyncForEach, List.map_map]
    exact List.map_congr_left (fun p _ => Process.start_name wait p)
  · simp only [Supervisor.stopAllProcesses, Manager.asyncForEach, List.map_map]
    exact List.map_congr_left (fun p _ => Process.stop_name wait p)
  · simp [Supervisor.startAllProcesses, Manager.asyncForEach, List.all_eq_true]
  · simp [Supervisor.stopAllProcesses, Manager.asyncForEach, List.all_eq_true]

/-! ## Claim C5 -/

instance : IsTotal ProcessInfo infoLe :=
  ⟨fun a b => le_total (toLex (a.group, a.name)) (toLex (b.group, b.name))⟩

instance : IsTrans ProcessInfo infoLe :=
  ⟨fun _ _ _ hab hbc => le_trans hab hbc⟩

/-- C5: `GetAllProcessInfo` returns exactly one `ProcessInfo` record
per registered process (a permutation of the per-process infos, hence
also the same length), sorted by the pair (group, name), with a nil
error. -/
theorem getAllProcessInfo_sorted_complete (s : Supervisor) (now : Nat) :
    ((s.getAllProcessInfo now).1).Perm (s.procMgr.procs.map (getProcessInfo now)) ∧
    List.Sorted infoLe (s.getAllProcessInfo now).1 ∧
    (s.getAllProcessInfo now).1.length = s.procMgr.procs.length ∧
    (s.getAllProcessInfo now).2 = none := by
  refine ⟨?_, ?_, ?_, rfl⟩
  · exact List.perm_insertionSort infoLe _
  · exact List.sorted_insertionSort infoLe _
  · calc (s.getAllProcessInfo now).1.length
        = (s.procMgr.procs.map (getProcessInfo now)).length :=
          (List.perm_insertionSort infoLe _).length_eq
      _ = s.procMgr.procs.length := List.length_map _ _

/-! ## Claim C6 -/

/-- C6: `SendProcessStdin(name, chars)` fails with a `NOT_RUNNING`
error — leaving every process (in particular every stdin) untouched —
whenever no process with that name is registered or the named process
is not RUNNING; for a registered RUNNING process it reports success
exactly when the write to the child's stdin succeeds, recording the
chars on success and failing with the write error otherwise. -/
theorem sendProcessStdin_not_running (s : Supervisor) (name chars : String) :
    (s.procMgr.find name = none →
      s.sendProcessStdin name chars = (s, false, some "NOT_RUNNING")) ∧
    (∀ p, s.procMgr.find name = some p → p.state ≠ ProcState.Running →
      s.sendProcessStdin name chars = (s, false, some "NOT_RUNNING")) ∧
    (∀ p, s.procMgr.find name = some p → p.state = ProcState.Running →
      ((s.sendProcessStdin name chars).2.1 = p.stdinOk ∧
       ((s.sendProcessStdin name chars).2.2 = none ↔ p.stdinOk = true) ∧
       (p.stdinOk = false →
         s.sendProcessStdin name chars = (s, false, some "write to stdin failed")))) := by
  refine ⟨?_, ?_, ?_⟩
  · intro h
    simp [Supervisor.sendProcessStdin, h]
  · intro p hp hst
    simp [Supervisor.sendProcessStdin, hp, hst]
  · intro p hp hst
    rcases hok : p.stdinOk with _ | _
    · have : p.sendStdin chars = none := by simp [Process.sendStdin, hok]
      refine ⟨?_, ?_, ?_⟩ <;>
        simp [Supervisor.sendProcessStdin, hp, hst, this]
    · have : p.sendStdin chars = some { p with stdinData := p.stdinData ++ [chars] } := by
        simp [Process.sendStdin, hok]
      refine ⟨?_, ?_, ?_⟩ <;>
        simp [Supervisor.sendProcessStdin, hp, hst, this]

/-- Witness for C6 at a concrete RUNNING process with a healthy stdin
pipe. -/
theorem sendProcessStdin_not_running_witness :
    (runSup.sendProcessStdin "a" "hi").2.1 = runProc.stdinOk ∧
    ((runSup.sendProcessStdin "a" "hi").2.2 = none ↔ runProc.stdinOk = true) :=
  ⟨((sendProcessStdin_not_running runSup "a" "hi").2.2 runProc (by decide) (by decide)).1,
   ((sendProcessStdin_not_running runSup "a" "hi").2.2 runProc (by decide) (by decide)).2.1⟩

/-! ## Claim C7 -/

/-- C7: for each signal `initSignals` subscribes to (SIGINT, SIGTERM),
the handler's action sequence performs `StopAllProcesses` strictly
before `os.Exit(-1)`, every exit in the sequence is preceded by the
stop-all, and the supervisor state at the exit point has every
supervised process in a non-running state. -/
theorem initSignals_stops_all_before_exit (sig : Nat) (hs : sig ∈ handledSignals) :
    (∃ i j, i < j ∧
      (signalHandlerTrace sig).get? i = some MainAction.stopAllAction ∧
      (signalHandlerTrace sig).get? j = some (MainAction.exitAction (-1))) ∧
    (∀ j c, (signalHandlerTrace sig).get? j = some (MainAction.exitAction c) →
      ∃ i, i < j ∧ (signalHandlerTrace sig).get? i = some MainAction.stopAllAction) ∧
    (∀ s : Supervisor,
      ((signalHandlerRun sig s).procMgr.procs.all
        (fun p => !p.state.runningLike)) = true) := by
  refine ⟨⟨1, 2, by omega, rfl, rfl⟩, ?_, ?_⟩
  · intro j c h
    match j with
    | 0 => simp [signalHandlerTrace] at h
    | 1 => simp [signalHandlerTrace] at h
    | 2 => exact ⟨1, by omega, rfl⟩
    | n + 3 => simp [signalHandlerTrace] at h
  · intro s
    simp only [signalHandlerRun, Manager.stopAllProcesses, Manager.forEach,
      List.all_eq_true, List.mem_map]
    rintro p ⟨q, _, rfl⟩
    simp [Process.stop_not_runningLike]

/-- Witness for C7 at the concrete signal SIGINT. -/
theorem initSignals_stops_all_before_exit_witness :
    ((signalHandlerRun 2 demoSup).procMgr.procs.all
      (fun p => !p.state.runningLike)) = true :=
  (initSignals_stops_all_before_exit 2 (by decide)).2.2 demoSup

/-! ## Claim C10 -/

/-- C10: when no registered process belongs to group `g`,
`StartProcessGroup(g, wait)` and `StopProcessGroup(g, wait)` return an
empty per-process result list with a nil error — no BAD_NAME failure —
and leave the supervisor unchanged: the fan-out still runs over all
registered processes but the group filter selects none, so no process
is started or stopped. -/
theorem groupOps_unknown_group_empty (s : Supervisor) (g : String) (wait : Bool) (now : Nat)
    (h : ∀ p ∈ s.procMgr.procs, (p.group == g) = false) :
    s.startProcessGroup g wait now = (s, [], none) ∧
    s.stopProcessGroup g wait now = (s, [], none) := by
  have hmap : ∀ f : Process → Process,
      s.procMgr.procs.map (fun p => if p.group == g then f p else p) = s.procMgr.procs := by
    intro f
    have := List.map_congr_left (l := s.procMgr.procs)
      (f := fun p => if p.group == g then f p else p) (g := id)
      (fun p hp => by simp [h p hp])
    simpa using this
  have hfilter : s.procMgr.procs.filter (fun p => p.group == g) = [] := by
    simp only [List.filter_eq_nil_iff]
    intro p hp
    simp [h p hp]
  constructor
  · simp only [Supervisor.startProcessGroup, Manager.asyncForEach, hmap, hfilter,
      List.map_nil]
  · simp only [Supervisor.stopProcessGroup, Manager.asyncForEach, hmap, hfilter,
      List.map_nil]

/-- Witness for C10 at a concrete supervisor and the unmatched group
name `nosuch`. -/
theorem groupOps_unknown_group_empty_witness :
    demoSup.startProcessGroup "nosuch" true 5 = (demoSup, [], none) ∧
    demoSup.stopProcessGroup "nosuch" true 5 = (demoSup, [], none) :=
  groupOps_unknown_group_empty demoSup "nosuch" true 5 (by decide)
